import Mathlib

/-!
Verification of the makcu-cpp driver library.

This file gives a shallow embedding of the core of the repository:
the serial `Channel` (src/makcu-cpp/src/serialport.cpp), the `Device`
session with its connect handshake and button-monitoring loop
(src/makcu-cpp/src/makcu.cpp), and the `MacroRecorder` macro engine
(src/makcu-cpp/src/utilities.cpp).

Conventions of the embedding:
* Machine integers (`uint8_t`, `uint32_t`, `size_t`) become `Nat`;
  `int32_t` becomes `Int`.  No arithmetic in the modelled fragment can
  overflow a 32-bit quantity, so no explicit wrap-around is needed.
* Byte streams become `List Nat`; C++ strings become `String`.
* The operating system / firmware side of the serial link is a
  parameter `SerialEnv`: each fallible channel primitive asks the
  environment for its outcome, where the environment may inspect the
  trace of channel events so far (so it can, e.g., accept the low-speed
  open but refuse the high-speed reopen).
* Stateful methods become explicit state passing; channel activity is
  accumulated in a trace of `ChanEv` events.  A `sleepEv` records a
  fixed `std::this_thread::sleep_for`.
* The background monitoring thread is modelled by the `monitoring`
  flag plus the pure `monitoringLoop` function over the list of bytes
  the loop would sample; joining the thread corresponds to clearing
  the flag.
-/

namespace Makcu

/-- `ConnectionStatus` from include/makcu.h. -/
inductive ConnectionStatus where
  | DISCONNECTED
  | CONNECTING
  | CONNECTED
  | CONNECTION_ERROR
deriving DecidableEq

/-- `MouseButton` from include/makcu.h (`LEFT = 0, …, SIDE5 = 4`). -/
inductive MouseButton where
  | LEFT
  | RIGHT
  | MIDDLE
  | SIDE4
  | SIDE5
deriving DecidableEq

/-- The numeric value of a `MouseButton` (`static_cast<int>(button)`). -/
def MouseButton.toNat : MouseButton → Nat
  | .LEFT => 0
  | .RIGHT => 1
  | .MIDDLE => 2
  | .SIDE4 => 3
  | .SIDE5 => 4

/-- `static_cast<MouseButton>(bit)` for `bit ∈ [0,4]` (makcu.cpp:177). -/
def MouseButton.ofBit : Nat → MouseButton
  | 0 => .LEFT
  | 1 => .RIGHT
  | 2 => .MIDDLE
  | 3 => .SIDE4
  | _ => .SIDE5

/-- The state of one `SerialPort` object (serialport.cpp): the open
flag, and the `m_portName` / `m_baudRate` members. -/
structure PortState where
  isOpen : Bool
  portName : String
  baudRate : Nat
deriving DecidableEq

/-- One observable event on the serial channel. -/
inductive ChanEv where
  | openEv (port : String) (baud : Nat) (ok : Bool)
  | writeEv (data : List Nat) (ok : Bool)
  | flushEv (ok : Bool)
  | closeEv
  | readEv (data : List Nat)
  | sleepEv (ms : Nat)
deriving DecidableEq

/-- The environment (OS + firmware) deciding the outcome of each
fallible channel primitive.  Every decision function receives the
trace of channel events performed so far, so outcomes may depend on
the history (e.g. accept the handshake but refuse the reopen).
`candidates` is the result of the external discovery collaborator
`SerialPort::findMakcuPorts`. -/
structure SerialEnv where
  openOk : List ChanEv → String → Nat → Bool
  writeOk : List ChanEv → List Nat → Bool
  flushOk : List ChanEv → Bool
  readData : List ChanEv → List Nat
  candidates : List String

/-- The bytes of a C++ `std::string` (used by `SerialPort::write(const
std::string&)`, serialport.cpp:200). -/
def strBytes (s : String) : List Nat :=
  s.toList.map Char.toNat

/-- `SerialPort::open` (serialport.cpp:38): if the port is already
open it closes first, records the requested name and rate, then asks
the environment; the port ends open exactly when the environment
grants the open. -/
def portOpen (env : SerialEnv) (p : PortState) (tr : List ChanEv)
    (port : String) (baud : Nat) : Bool × PortState × List ChanEv :=
  let tr := if p.isOpen then tr ++ [ChanEv.closeEv] else tr
  let ok := env.openOk tr port baud
  (ok, { isOpen := ok, portName := port, baudRate := baud }, tr ++ [ChanEv.openEv port baud ok])

/-- `SerialPort::close` (serialport.cpp:108): a no-op when already
closed. -/
def portClose (p : PortState) (tr : List ChanEv) : PortState × List ChanEv :=
  if p.isOpen then ({ p with isOpen := false }, tr ++ [ChanEv.closeEv]) else (p, tr)

/-- `SerialPort::write` (serialport.cpp:171): returns `false` without
touching the OS when the port is closed or the data is empty. -/
def portWrite (env : SerialEnv) (p : PortState) (tr : List ChanEv)
    (data : List Nat) : Bool × List ChanEv :=
  if p.isOpen = false || data.isEmpty then (false, tr)
  else
    let ok := env.writeOk tr data
    (ok, tr ++ [ChanEv.writeEv data ok])

/-- `SerialPort::flush` (serialport.cpp:273). -/
def portFlush (env : SerialEnv) (p : PortState) (tr : List ChanEv) :
    Bool × List ChanEv :=
  if p.isOpen = false then (false, tr)
  else
    let ok := env.flushOk tr
    (ok, tr ++ [ChanEv.flushEv ok])

/-- `SerialPort::readString` (serialport.cpp:236): empty when the
port is closed, else up to `maxBytes` bytes supplied by the
environment. -/
def portReadString (env : SerialEnv) (p : PortState) (tr : List ChanEv)
    (maxBytes : Nat) : String × List ChanEv :=
  if p.isOpen = false || maxBytes = 0 then ("", tr)
  else
    let data := (env.readData tr).take maxBytes
    (String.mk (data.map Char.ofNat), tr ++ [ChanEv.readEv data])

/-- `INITIAL_BAUD_RATE` (makcu.cpp:19). -/
def INITIAL_BAUD_RATE : Nat := 115200

/-- `HIGH_SPEED_BAUD_RATE` (makcu.cpp:20). -/
def HIGH_SPEED_BAUD_RATE : Nat := 4000000

/-- `BAUD_CHANGE_COMMAND` (makcu.cpp:23): the fixed 9-byte rate-switch
trigger. -/
def BAUD_CHANGE_COMMAND : List Nat :=
  [0xDE, 0xAD, 0x05, 0x00, 0xA5, 0x00, 0x09, 0x3D, 0x00]

/-- The mutable state of a `Device::Impl` (makcu.cpp:26) relevant to
the claims: the owned serial port, the status enum, the `connected`
and `monitoring` atomics, the `deviceInfo` snapshot, and whether a
mouse-button callback is registered. -/
structure DeviceState where
  port : PortState
  status : ConnectionStatus
  connected : Bool
  monitoring : Bool
  infoPort : String
  infoConnected : Bool
  hasMouseCallback : Bool
deriving DecidableEq

/-- A freshly constructed `Device` (makcu.cpp:38). -/
def initialDevice : DeviceState :=
  { port := { isOpen := false, portName := "", baudRate := 115200 }
    status := .DISCONNECTED
    connected := false
    monitoring := false
    infoPort := ""
    infoConnected := false
    hasMouseCallback := false }

/-- `Device::Impl::switchToHighSpeedMode` (makcu.cpp:51): write the
9-byte rate-switch command, flush, close, wait 100 ms, reopen the same
port name at the high-speed rate.  Only the serial port is mutated. -/
def switchToHighSpeedMode (env : SerialEnv) (p : PortState) (tr : List ChanEv) :
    Bool × PortState × List ChanEv :=
  if p.isOpen = false then (false, p, tr)
  else
    match portWrite env p tr BAUD_CHANGE_COMMAND with
    | (false, tr) => (false, p, tr)
    | (true, tr) =>
      match portFlush env p tr with
      | (false, tr) => (false, p, tr)
      | (true, tr) =>
        let portName := p.portName
        let (p, tr) := portClose p tr
        let tr := tr ++ [ChanEv.sleepEv 100]
        portOpen env p tr portName HIGH_SPEED_BAUD_RATE

/-- `Device::Impl::initializeDevice` (makcu.cpp:89): wait 2000 ms for
the firmware to settle, send `km.buttons(1)\r`, flush, wait 50 ms.
The port state itself is not mutated. -/
def initDevice (env : SerialEnv) (p : PortState) (tr : List ChanEv) :
    Bool × List ChanEv :=
  if p.isOpen = false then (false, tr)
  else
    let tr := tr ++ [ChanEv.sleepEv 2000]
    match portWrite env p tr (strBytes "km.buttons(1)\r") with
    | (false, tr) => (false, tr)
    | (true, tr) =>
      match portFlush env p tr with
      | (false, tr) => (false, tr)
      | (true, tr) => (true, tr ++ [ChanEv.sleepEv 50])

/-- `Device::connect` (makcu.cpp:221).  Returns the result, the final
device state and the trace of channel events of this attempt.  The
port-resolution step consults `env.candidates` (the discovery
collaborator) when the argument is empty. -/
def connect (env : SerialEnv) (st : DeviceState) (portArg : String) :
    Bool × DeviceState × List ChanEv :=
  if st.connected then (true, st, [])
  else
    let target := if portArg = "" then env.candidates.headD "" else portArg
    if target = "" then (false, { st with status := .CONNECTION_ERROR }, [])
    else
      let st1 := { st with status := .CONNECTING }
      match portOpen env st1.port [] target INITIAL_BAUD_RATE with
      | (false, p, tr) =>
        (false, { st1 with port := p, status := .CONNECTION_ERROR }, tr)
      | (true, p, tr) =>
        match switchToHighSpeedMode env p tr with
        | (false, p2, tr) =>
          let (p3, tr) := portClose p2 tr
          (false, { st1 with port := p3, status := .CONNECTION_ERROR }, tr)
        | (true, p2, tr) =>
          match initDevice env p2 tr with
          | (false, tr) =>
            let (p3, tr) := portClose p2 tr
            (false, { st1 with port := p3, status := .CONNECTION_ERROR }, tr)
          | (true, tr) =>
            (true, { st1 with
                     port := p2
                     infoPort := target
                     infoConnected := true
                     connected := true
                     status := .CONNECTED
                     monitoring := true }, tr)

/-- `Device::disconnect` (makcu.cpp:288): when not connected it
returns immediately without touching anything; otherwise it stops and
joins the monitoring thread (`monitoring := false`), closes the port,
clears `connected`, and resets the status to `DISCONNECTED`. -/
def disconnect (st : DeviceState) : DeviceState :=
  if st.connected = false then st
  else
    { st with
      monitoring := false
      port := { st.port with isOpen := false }
      connected := false
      status := .DISCONNECTED
      infoConnected := false }

/-- `Device::Impl::processButtonData` (makcu.cpp:169): with no
callback registered nothing is invoked; otherwise the callback is
invoked once per bit 0..4, in increasing bit order, with that bit's
value in `data`. -/
def processButtonData (hasMouseCallback : Bool) (data : Nat) :
    List (MouseButton × Bool) :=
  if hasMouseCallback = false then []
  else
    (List.range 5).map fun bit =>
      (MouseButton.ofBit bit, decide (data &&& (1 <<< bit) ≠ 0))

/-- One iteration of `Device::Impl::monitoringLoop` (makcu.cpp:152)
after a byte was read: process it only when it differs from the last
observed value, then remember it.  Returns the new `lastValue` and the
callback invocations performed. -/
def monitorStep (hasMouseCallback : Bool) (lastValue b : Nat) :
    Nat × List (MouseButton × Bool) :=
  if b ≠ lastValue then (b, processButtonData hasMouseCallback b)
  else (lastValue, [])

/-- `Device::Impl::monitoringLoop` (makcu.cpp:143) over the list of
per-iteration samples (`none` when nothing was available or the read
failed), starting from `lastValue = 0`.  Returns all callback
invocations in order. -/
def monitoringLoop (hasMouseCallback : Bool) :
    Nat → List (Option Nat) → List (MouseButton × Bool)
  | _, [] => []
  | lastValue, none :: rest => monitoringLoop hasMouseCallback lastValue rest
  | lastValue, some b :: rest =>
    let (lastValue', evs) := monitorStep hasMouseCallback lastValue b
    evs ++ monitoringLoop hasMouseCallback lastValue' rest

/-- `Device::sendRawCommand` (makcu.cpp:603): guard on `connected`,
then write the command bytes to the serial port. -/
def sendRawCommand (env : SerialEnv) (st : DeviceState) (tr : List ChanEv)
    (command : String) : Bool × List ChanEv :=
  if st.connected = false then (false, tr)
  else portWrite env st.port tr (strBytes command)

/-- `Device::receiveRawResponse` (makcu.cpp:611): guard on
`connected`, wait 50 ms, then read up to 1024 bytes. -/
def receiveRawResponse (env : SerialEnv) (st : DeviceState) (tr : List ChanEv) :
    String × List ChanEv :=
  if st.connected = false then ("", tr)
  else portReadString env st.port (tr ++ [ChanEv.sleepEv 50]) 1024

/-- `Device::keyDown` (makcu.cpp:342).  Key codes are the numeric
values of the `KeyCode` enum. -/
def keyDown (env : SerialEnv) (st : DeviceState) (key : Nat) : Bool × List ChanEv :=
  if st.connected = false then (false, [])
  else sendRawCommand env st [] ("km.down(" ++ toString key ++ ")\r")

/-- `Device::keyUp` (makcu.cpp:352). -/
def keyUp (env : SerialEnv) (st : DeviceState) (key : Nat) : Bool × List ChanEv :=
  if st.connected = false then (false, [])
  else sendRawCommand env st [] ("km.up(" ++ toString key ++ ")\r")

/-- `Device::keyPress` (makcu.cpp:362): the duration argument is
included only when positive. -/
def keyPress (env : SerialEnv) (st : DeviceState) (key duration_ms : Nat) :
    Bool × List ChanEv :=
  if st.connected = false then (false, [])
  else
    let cmd := if duration_ms > 0 then
        "km.press(" ++ toString key ++ "," ++ toString duration_ms ++ ")\r"
      else "km.press(" ++ toString key ++ ")\r"
    sendRawCommand env st [] cmd

/-- Comma-joined numeric key list, as built by the loops in
`Device::multiKeyDown` and friends (makcu.cpp:384). -/
def joinKeys (keys : List Nat) : String :=
  String.intercalate "," (keys.map toString)

/-- `Device::multiKeyDown` (makcu.cpp:377): fails on an empty key
list even when connected. -/
def multiKeyDown (env : SerialEnv) (st : DeviceState) (keys : List Nat) :
    Bool × List ChanEv :=
  if st.connected = false || keys.isEmpty then (false, [])
  else sendRawCommand env st [] ("km.multidown(" ++ joinKeys keys ++ ")\r")

/-- `Device::multiKeyUp` (makcu.cpp:394). -/
def multiKeyUp (env : SerialEnv) (st : DeviceState) (keys : List Nat) :
    Bool × List ChanEv :=
  if st.connected = false || keys.isEmpty then (false, [])
  else sendRawCommand env st [] ("km.multiup(" ++ joinKeys keys ++ ")\r")

/-- `Device::multiKeyPress` (makcu.cpp:411): the duration is appended
only when positive. -/
def multiKeyPress (env : SerialEnv) (st : DeviceState) (keys : List Nat)
    (duration_ms : Nat) : Bool × List ChanEv :=
  if st.connected = false || keys.isEmpty then (false, [])
  else
    let cmd := "km.multipress(" ++ joinKeys keys ++
      (if duration_ms > 0 then "," ++ toString duration_ms else "") ++ ")\r"
    sendRawCommand env st [] cmd

/-- `Device::typeString` (makcu.cpp:431): fails on an empty string
even when connected. -/
def typeString (env : SerialEnv) (st : DeviceState) (text : String) :
    Bool × List ChanEv :=
  if st.connected = false || text = "" then (false, [])
  else sendRawCommand env st [] ("km.string(\"" ++ text ++ "\")\r")

/-- `Device::isKeyDown` (makcu.cpp:441): a query; the reply is matched
for the substrings `"1"` or `"3"` (single characters, so a character
containment test). -/
def isKeyDown (env : SerialEnv) (st : DeviceState) (key : Nat) :
    Bool × List ChanEv :=
  if st.connected = false then (false, [])
  else
    match sendRawCommand env st [] ("km.isdown(" ++ toString key ++ ")\r") with
    | (false, tr) => (false, tr)
    | (true, tr) =>
      let (response, tr) := receiveRawResponse env st tr
      (response.contains '1' || response.contains '3', tr)

/-- `Device::getVersion` (makcu.cpp:317). -/
def getVersion (env : SerialEnv) (st : DeviceState) : String × List ChanEv :=
  if st.connected = false then ("", [])
  else
    match sendRawCommand env st [] "km.version()\r" with
    | (false, tr) => ("", tr)
    | (true, tr) => receiveRawResponse env st tr

/-- `Device::getSerialNumber` (makcu.cpp:329). -/
def getSerialNumber (env : SerialEnv) (st : DeviceState) : String × List ChanEv :=
  if st.connected = false then ("", [])
  else
    match sendRawCommand env st [] "km.mac()\r" with
    | (false, tr) => ("", tr)
    | (true, tr) => receiveRawResponse env st tr

/-- The command string of `Device::mouseDown`'s switch (makcu.cpp:462). -/
def mouseDownCmd : MouseButton → String
  | .LEFT => "km.left(1)\r"
  | .RIGHT => "km.right(1)\r"
  | .MIDDLE => "km.middle(1)\r"
  | .SIDE4 => "km.side1(1)\r"
  | .SIDE5 => "km.side2(1)\r"

/-- The command string of `Device::mouseUp`'s switch (makcu.cpp:478). -/
def mouseUpCmd : MouseButton → String
  | .LEFT => "km.left(0)\r"
  | .RIGHT => "km.right(0)\r"
  | .MIDDLE => "km.middle(0)\r"
  | .SIDE4 => "km.side1(0)\r"
  | .SIDE5 => "km.side2(0)\r"

/-- `Device::mouseDown` (makcu.cpp:456). -/
def mouseDown (env : SerialEnv) (st : DeviceState) (button : MouseButton) :
    Bool × List ChanEv :=
  if st.connected = false then (false, [])
  else sendRawCommand env st [] (mouseDownCmd button)

/-- `Device::mouseUp` (makcu.cpp:472). -/
def mouseUp (env : SerialEnv) (st : DeviceState) (button : MouseButton) :
    Bool × List ChanEv :=
  if st.connected = false then (false, [])
  else sendRawCommand env st [] (mouseUpCmd button)

/-- `Device::mouseClick` (makcu.cpp:488). -/
def mouseClick (env : SerialEnv) (st : DeviceState) (button : MouseButton)
    (count : Nat) : Bool × List ChanEv :=
  if st.connected = false then (false, [])
  else sendRawCommand env st []
    ("km.click(" ++ toString button.toNat ++ "," ++ toString count ++ ")\r")

/-- `Device::mouseMove` (makcu.cpp:498). -/
def mouseMove (env : SerialEnv) (st : DeviceState) (x y : Int) : Bool × List ChanEv :=
  if st.connected = false then (false, [])
  else sendRawCommand env st []
    ("km.move(" ++ toString x ++ "," ++ toString y ++ ")\r")

/-- `Device::mouseMoveTo` (makcu.cpp:508). -/
def mouseMoveTo (env : SerialEnv) (st : DeviceState) (x y : Int) : Bool × List ChanEv :=
  if st.connected = false then (false, [])
  else sendRawCommand env st []
    ("km.moveto(" ++ toString x ++ "," ++ toString y ++ ")\r")

/-- `Device::mouseWheel` (makcu.cpp:518). -/
def mouseWheel (env : SerialEnv) (st : DeviceState) (delta : Int) : Bool × List ChanEv :=
  if st.connected = false then (false, [])
  else sendRawCommand env st [] ("km.wheel(" ++ toString delta ++ ")\r")

/-- `Device::mouseCalibrate` (makcu.cpp:541). -/
def mouseCalibrate (env : SerialEnv) (st : DeviceState) : Bool × List ChanEv :=
  if st.connected = false then (false, [])
  else sendRawCommand env st [] "km.zero()\r"

/-- `Device::mouseSetScreenBounds` (makcu.cpp:549). -/
def mouseSetScreenBounds (env : SerialEnv) (st : DeviceState) (width height : Int) :
    Bool × List ChanEv :=
  if st.connected = false then (false, [])
  else sendRawCommand env st []
    ("km.screen(" ++ toString width ++ "," ++ toString height ++ ")\r")

/-- `Device::reset` (makcu.cpp:559). -/
def reset (env : SerialEnv) (st : DeviceState) : Bool × List ChanEv :=
  if st.connected = false then (false, [])
  else sendRawCommand env st [] "km.init()\r"

/-- `Device::delay` (makcu.cpp:593). -/
def delay (env : SerialEnv) (st : DeviceState) (milliseconds : Nat) :
    Bool × List ChanEv :=
  if st.connected = false then (false, [])
  else sendRawCommand env st [] ("km.delay(" ++ toString milliseconds ++ ")\r")

/-- `Device::enableButtonMonitoring` (makcu.cpp:575). -/
def enableButtonMonitoring (env : SerialEnv) (st : DeviceState) (enable : Bool) :
    Bool × List ChanEv :=
  if st.connected = false then (false, [])
  else sendRawCommand env st []
    ("km.buttons(" ++ (if enable then "1" else "0") ++ ")\r")

/-! ## Macro engine (src/makcu-cpp/src/utilities.cpp, include/utilities.h) -/

/-- `ActionType` from include/utilities.h; `code` below gives the
numeric value used by `static_cast<int>(type)` in the serializers. -/
inductive ActionType where
  | KEY_DOWN
  | KEY_UP
  | KEY_PRESS
  | MULTI_KEY_PRESS
  | TYPE_STRING
  | MOUSE_DOWN
  | MOUSE_UP
  | MOUSE_CLICK
  | MOUSE_MOVE
  | MOUSE_MOVETO
  | MOUSE_WHEEL
  | DELAY
deriving DecidableEq

/-- `static_cast<int>(type)`: the enum's numeric value. -/
def ActionType.code : ActionType → Nat
  | .KEY_DOWN => 0
  | .KEY_UP => 1
  | .KEY_PRESS => 2
  | .MULTI_KEY_PRESS => 3
  | .TYPE_STRING => 4
  | .MOUSE_DOWN => 5
  | .MOUSE_UP => 6
  | .MOUSE_CLICK => 7
  | .MOUSE_MOVE => 8
  | .MOUSE_MOVETO => 9
  | .MOUSE_WHEEL => 10
  | .DELAY => 11

/-- The closed variant of the `Action` class hierarchy
(include/utilities.h): `KeyAction`, `MultiKeyAction`,
`TypeStringAction`, `MouseButtonAction`, `MouseMoveAction`,
`MouseWheelAction`, `DelayAction`.  The first component of `key` and
`mouseBtn` is the `type` member set at construction (one of the
down/up/press or down/up/click variants respectively); `mouseMove`'s
`absolute` flag determines its `type` (`MOUSE_MOVE` or
`MOUSE_MOVETO`). -/
inductive MAction where
  | key (t : ActionType) (keyCode : Nat) (duration : Nat)
  | multiKey (keys : List Nat) (duration : Nat)
  | typeStr (text : String)
  | mouseBtn (t : ActionType) (button : MouseButton) (count : Nat)
  | mouseMov (x y : Int) (absolute : Bool)
  | mouseWhl (delta : Int)
  | delayAct (milliseconds : Nat)
deriving DecidableEq

/-- The `type` member of each action (set by the constructors in
include/utilities.h). -/
def MAction.type : MAction → ActionType
  | .key t _ _ => t
  | .multiKey _ _ => .MULTI_KEY_PRESS
  | .typeStr _ => .TYPE_STRING
  | .mouseBtn t _ _ => t
  | .mouseMov _ _ abs => if abs then .MOUSE_MOVETO else .MOUSE_MOVE
  | .mouseWhl _ => .MOUSE_WHEEL
  | .delayAct _ => .DELAY

/-- The `serialize` virtual of each action class (utilities.cpp:23,
43, 58, 69, 89, 104, 115). -/
def MAction.serialize : MAction → String
  | .key t k d => toString t.code ++ "," ++ toString k ++ "," ++ toString d
  | .multiKey keys d =>
    toString (ActionType.MULTI_KEY_PRESS).code ++ "," ++ toString keys.length ++
      String.join (keys.map fun k => "," ++ toString k) ++ "," ++ toString d
  | .typeStr text =>
    toString (ActionType.TYPE_STRING).code ++ "," ++ toString text.length ++ "," ++ text
  | .mouseBtn t b c => toString t.code ++ "," ++ toString b.toNat ++ "," ++ toString c
  | .mouseMov x y abs =>
    toString (MAction.mouseMov x y abs).type.code ++ "," ++ toString x ++ "," ++ toString y
  | .mouseWhl d => toString (ActionType.MOUSE_WHEEL).code ++ "," ++ toString d
  | .delayAct ms => toString (ActionType.DELAY).code ++ "," ++ toString ms

/-- An action together with its `timestamp` member (milliseconds
since recording start). -/
structure TimedAction where
  ts : Nat
  act : MAction
deriving DecidableEq

/-- The state of a `MacroRecorder` (include/utilities.h:157).
`recordingStart` is the captured `std::chrono::steady_clock` instant,
in milliseconds.  The `m_stopPlayback` flag is omitted: in this
sequential embedding a synchronous playback runs with the flag false
throughout (it is reset on entry and only a concurrent `stopPlayback`
sets it). -/
structure RecState where
  actions : List TimedAction
  recordingStart : Nat
  recording : Bool
  playing : Bool
  recordMouseMovement : Bool
  minimumDelay : Nat
  useTimestamps : Bool
deriving DecidableEq

/-- The constructed `MacroRecorder` (utilities.cpp:127). -/
def initRecState : RecState :=
  { actions := []
    recordingStart := 0
    recording := false
    playing := false
    recordMouseMovement := false
    minimumDelay := 10
    useTimestamps := true }

/-- `MacroRecorder::getCurrentTimestamp` (utilities.cpp:376): zero
when not recording, else elapsed time since the recording start.
`now` is the current monotonic-clock reading in milliseconds. -/
def getCurrentTimestamp (st : RecState) (now : Nat) : Nat :=
  if st.recording = false then 0 else now - st.recordingStart

/-- The common tail of every `add*`/`on*` recorder method: construct
the action, stamp it with `getCurrentTimestamp`, and `push_back`. -/
def pushAction (st : RecState) (now : Nat) (a : MAction) : RecState :=
  { st with actions := st.actions ++ [{ ts := getCurrentTimestamp st now, act := a }] }

/-- `MacroRecorder::startRecording` (utilities.cpp:142): fails if
already recording, else clears the action list, captures the start
instant and raises the flag. -/
def startRecording (st : RecState) (now : Nat) : Bool × RecState :=
  if st.recording then (false, st)
  else (true, { st with actions := [], recordingStart := now, recording := true })

/-- `MacroRecorder::stopRecording` (utilities.cpp:153): just lowers
the flag. -/
def stopRecording (st : RecState) : Bool × RecState :=
  if st.recording = false then (false, st)
  else (true, { st with recording := false })

/-- `MacroRecorder::addKeyPress` (utilities.cpp:284). -/
def addKeyPress (st : RecState) (now : Nat) (key duration : Nat) : RecState :=
  pushAction st now (.key .KEY_PRESS key duration)

/-- `MacroRecorder::addMultiKeyPress` (utilities.cpp:290). -/
def addMultiKeyPress (st : RecState) (now : Nat) (keys : List Nat) (duration : Nat) :
    RecState :=
  pushAction st now (.multiKey keys duration)

/-- `MacroRecorder::addTypeString` (utilities.cpp:296). -/
def addTypeString (st : RecState) (now : Nat) (text : String) : RecState :=
  pushAction st now (.typeStr text)

/-- `MacroRecorder::addMouseClick` (utilities.cpp:302). -/
def addMouseClick (st : RecState) (now : Nat) (button : MouseButton) (count : Nat) :
    RecState :=
  pushAction st now (.mouseBtn .MOUSE_CLICK button count)

/-- `MacroRecorder::addMouseMove` (utilities.cpp:308). -/
def addMouseMove (st : RecState) (now : Nat) (x y : Int) (absolute : Bool) : RecState :=
  pushAction st now (.mouseMov x y absolute)

/-- `MacroRecorder::addMouseWheel` (utilities.cpp:314). -/
def addMouseWheel (st : RecState) (now : Nat) (delta : Int) : RecState :=
  pushAction st now (.mouseWhl delta)

/-- `MacroRecorder::addDelay` (utilities.cpp:320). -/
def addDelay (st : RecState) (now : Nat) (milliseconds : Nat) : RecState :=
  pushAction st now (.delayAct milliseconds)

/-- `MacroRecorder::onKeyboard` (utilities.cpp:326): records only
while recording. -/
def onKeyboard (st : RecState) (now : Nat) (key : Nat) (isPressed : Bool) : RecState :=
  if st.recording = false then st
  else pushAction st now (.key (if isPressed then .KEY_DOWN else .KEY_UP) key 0)

/-- `MacroRecorder::onMouseButton` (utilities.cpp:335). -/
def onMouseButton (st : RecState) (now : Nat) (button : MouseButton) (isPressed : Bool) :
    RecState :=
  if st.recording = false then st
  else pushAction st now (.mouseBtn (if isPressed then .MOUSE_DOWN else .MOUSE_UP) button 1)

/-- `MacroRecorder::onMouseMove` (utilities.cpp:344): additionally
gated by the `m_recordMouseMovement` flag. -/
def onMouseMove (st : RecState) (now : Nat) (x y : Int) : RecState :=
  if st.recording = false || st.recordMouseMovement = false then st
  else pushAction st now (.mouseMov x y false)

/-- `MacroRecorder::onMouseWheel` (utilities.cpp:352). -/
def onMouseWheel (st : RecState) (now : Nat) (delta : Int) : RecState :=
  if st.recording = false then st
  else pushAction st now (.mouseWhl delta)

/-- `MacroRecorder::setRecordMouseMovement` (utilities.cpp:360). -/
def setRecordMouseMovement (st : RecState) (record : Bool) : RecState :=
  { st with recordMouseMovement := record }

/-- The text `MacroRecorder::saveToFile` (utilities.cpp:233) writes:
a header line, the action count, then one line
`timestampMs,serialize()` per action. -/
def saveToFile (actions : List TimedAction) : String :=
  "MAKCU_MACRO_V1\n" ++ toString actions.length ++ "\n" ++
    String.join (actions.map fun a => toString a.ts ++ "," ++ a.act.serialize ++ "\n")

/-- Split file content at newline characters, as successive
`std::getline` calls see it. -/
def splitLinesAux : List Char → List Char → List String
  | [], acc => [String.mk acc.reverse]
  | c :: rest, acc =>
    if c = '\n' then String.mk acc.reverse :: splitLinesAux rest []
    else splitLinesAux rest (c :: acc)

/-- The lines of a file's content. -/
def splitLines (s : String) : List String :=
  splitLinesAux s.toList []

/-- The value `file >> actionCount` leaves in `actionCount`: the
decimal number when the line is all digits, and 0 on a failed
extraction (which value-initializes the target since C++11).
`c.toNat - 48` is the digit value of `c` (48 is the code of `'0'`). -/
def parseCount (s : String) : Nat :=
  let cs := s.toList
  if cs.isEmpty = false && cs.all (fun c => c.isDigit) then
    cs.foldl (fun acc c => acc * 10 + (c.toNat - 48)) 0
  else 0

/-- `MacroRecorder::loadFromFile` (utilities.cpp:249).  `file` is
`none` when the file cannot be opened, else its full content.  The
source validates the header line, extracts the action count, clears
`m_actions`, then loops `getline` over the declared number of action
lines — but, per its own comment, constructs no actions ("Note: Full
implementation would parse the serialized actions / This is a
simplified version showing the structure"), ignores `getline`
failures on a truncated file, and returns `true`. -/
def loadFromFile (st : RecState) (file : Option String) : Bool × RecState :=
  if st.recording || st.playing then (false, st)
  else
    match file with
    | none => (false, st)
    | some content =>
      let lines := splitLines content
      let header := lines.headD ""
      if header ≠ "MAKCU_MACRO_V1" then (false, st)
      else
        let actionCount := parseCount (lines.getD 1 "")
        let _consumed := (lines.drop 2).take actionCount
        (true, { st with actions := [] })

/-- The body of one playback repetition
(`MacroRecorder::playback`, utilities.cpp:177-191): walk the actions
with the previous action's timestamp in hand; before executing an
action, sleep for the timestamp gap when timestamp mode is on, the
timestamp is strictly past the previous one, and the gap reaches
`m_minimumDelay`.  Each action is returned paired with the sleep
(if any) performed before it. -/
def playbackSteps (useTimestamps : Bool) (minimumDelay : Nat) :
    Nat → List TimedAction → List (Option Nat × TimedAction)
  | _, [] => []
  | previousTimestamp, a :: rest =>
    let s :=
      if useTimestamps && decide (previousTimestamp < a.ts) then
        let d := a.ts - previousTimestamp
        if minimumDelay ≤ d then some d else none
      else none
    (s, a) :: playbackSteps useTimestamps minimumDelay a.ts rest

/-- `MacroRecorder::playback` (utilities.cpp:166): fails fast when
already playing or the list is empty; otherwise replays the action
list `repeatCount` times, resetting the previous timestamp to 0 at
each repetition.  (The stop flag is cleared on entry and nothing in a
synchronous run sets it.)  Returns the success flag and the full
sleep/execute schedule. -/
def playback (st : RecState) (repeatCount : Nat) :
    Bool × List (Option Nat × TimedAction) :=
  if st.playing || st.actions.isEmpty then (false, [])
  else
    (true, (List.range repeatCount).map (fun _ =>
      playbackSteps st.useTimestamps st.minimumDelay 0 st.actions) |>.flatten)

/-- One recorder operation, for reasoning about operation sequences
(claim C8).  Each carries the arguments of the corresponding
`MacroRecorder` method. -/
inductive RecOp where
  | startRec
  | stopRec
  | opAddKeyPress (key duration : Nat)
  | opAddMultiKeyPress (keys : List Nat) (duration : Nat)
  | opAddTypeString (text : String)
  | opAddMouseClick (button : MouseButton) (count : Nat)
  | opAddMouseMove (x y : Int) (absolute : Bool)
  | opAddMouseWheel (delta : Int)
  | opAddDelay (milliseconds : Nat)
  | opOnKeyboard (key : Nat) (isPressed : Bool)
  | opOnMouseButton (button : MouseButton) (isPressed : Bool)
  | opOnMouseMove (x y : Int)
  | opOnMouseWheel (delta : Int)
  | opLoad (file : Option String)
  | opSetRecordMouseMovement (record : Bool)
deriving DecidableEq

/-- Whether an operation is one of the manual `add*` methods (which
append unconditionally, stamping 0 when not recording). -/
def RecOp.isManualAdd : RecOp → Bool
  | .opAddKeyPress _ _ => true
  | .opAddMultiKeyPress _ _ => true
  | .opAddTypeString _ => true
  | .opAddMouseClick _ _ => true
  | .opAddMouseMove _ _ _ => true
  | .opAddMouseWheel _ => true
  | .opAddDelay _ => true
  | _ => false

/-- Execute one recorder operation at monotonic-clock time `now`. -/
def recStep (st : RecState) (now : Nat) : RecOp → RecState
  | .startRec => (startRecording st now).2
  | .stopRec => (stopRecording st).2
  | .opAddKeyPress k d => addKeyPress st now k d
  | .opAddMultiKeyPress ks d => addMultiKeyPress st now ks d
  | .opAddTypeString t => addTypeString st now t
  | .opAddMouseClick b c => addMouseClick st now b c
  | .opAddMouseMove x y abs => addMouseMove st now x y abs
  | .opAddMouseWheel d => addMouseWheel st now d
  | .opAddDelay ms => addDelay st now ms
  | .opOnKeyboard k p => onKeyboard st now k p
  | .opOnMouseButton b p => onMouseButton st now b p
  | .opOnMouseMove x y => onMouseMove st now x y
  | .opOnMouseWheel d => onMouseWheel st now d
  | .opLoad f => (loadFromFile st f).2
  | .opSetRecordMouseMovement r => setRecordMouseMovement st r

/-- Run a sequence of timestamped recorder operations. -/
def runOps (st : RecState) : List (Nat × RecOp) → RecState
  | [] => st
  | (t, op) :: rest => runOps (recStep st t op) rest

/-- Checks that every manual `add*` operation in the sequence executes
while recording is active. -/
def addsOkB (st : RecState) : List (Nat × RecOp) → Bool
  | [] => true
  | (t, op) :: rest =>
    (!op.isManualAdd || st.recording) && addsOkB (recStep st t op) rest

/-! ## Concrete states and environments used by witnesses -/

/-- An environment that grants every channel operation. -/
def envAllOkW : SerialEnv :=
  { openOk := fun _ _ _ => true
    writeOk := fun _ _ => true
    flushOk := fun _ => true
    readData := fun _ => []
    candidates := ["COM3"] }

/-- A device in the fully connected state. -/
def connectedDemo : DeviceState :=
  { initialDevice with
    connected := true
    status := .CONNECTED
    monitoring := true
    infoPort := "COM3"
    infoConnected := true
    port := { isOpen := true, portName := "COM3", baudRate := 4000000 } }

/-- A device state as left behind by a failed connect attempt:
status `CONNECTION_ERROR`, not connected, channel closed. -/
def errorStateDemo : DeviceState :=
  { initialDevice with status := .CONNECTION_ERROR }

/-- The macro used as failing input for the round-trip claims: a
single `DelayAction(500)` recorded at timestamp 0. -/
def demoMacro : List TimedAction := [{ ts := 0, act := .delayAct 500 }]

/-- A recorder that already holds a previously loaded macro. -/
def loadedRec : RecState := { initRecState with actions := demoMacro }

/-- The pacing rule transcribed from the spec's words (§4.5, §8):
between consecutive actions, sleep for the gap between their
timestamps exactly when that gap is at or above the minimum-delay
threshold; sub-threshold gaps are coalesced (no sleep).  The gap of
the first action is taken from the repetition's start (previous
timestamp 0). -/
def specPacing (minimumDelay : Nat) :
    Nat → List TimedAction → List (Option Nat × TimedAction)
  | _, [] => []
  | prev, a :: rest =>
    ((if minimumDelay ≤ a.ts - prev then some (a.ts - prev) else none), a) ::
      specPacing minimumDelay a.ts rest

/-- The spec's pacing scenario: three actions at timestamps
0 ms, 200 ms, 250 ms with a 100 ms minimum-delay threshold. -/
def pacingDemo : RecState :=
  { initRecState with
    actions := [{ ts := 0, act := .delayAct 1 },
                { ts := 200, act := .mouseWhl 1 },
                { ts := 250, act := .mouseWhl 2 }]
    minimumDelay := 100 }

/-- The operation sequence refuting C8 as stated: record one keyboard
event 100 ms into a recording, stop recording, then author one manual
action.  The manual `add*` call stamps `getCurrentTimestamp() = 0`
because recording has stopped (utilities.cpp:377), which lands after
the 100 ms entry. -/
def c8BadOps : List (Nat × RecOp) :=
  [(0, .startRec), (100, .opOnKeyboard 4 true), (150, .stopRec),
   (200, .opAddKeyPress 5 0)]

/-- The invariant maintained by recorder operations: the recorded
timestamps are non-decreasing, and while recording every timestamp
is at most the elapsed time `now - recordingStart`. -/
def RecInv (st : RecState) (now : Nat) : Prop :=
  List.Chain' (· ≤ ·) (st.actions.map TimedAction.ts) ∧
  (st.recording = true →
    st.recordingStart ≤ now ∧
    ∀ a ∈ st.actions, a.ts ≤ now - st.recordingStart)

/-- A well-formed operation sequence: record a keyboard edge and a
manual delay during recording, then stop. -/
def c8GoodOps : List (Nat × RecOp) :=
  [(0, .startRec), (100, .opOnKeyboard 4 true), (120, .opAddDelay 500),
   (150, .stopRec)]

/-- An environment that grants the open, handshake and reopen but
fails the initialization command: writes succeed only for the 9-byte
rate-switch payload, so `km.buttons(1)\r` fails. -/
def envInitFailW : SerialEnv :=
  { envAllOkW with writeOk := fun _ data => data == BAUD_CHANGE_COMMAND }

/-! ## Helper lemmas -/

theorem portClose_isOpen (p : PortState) (tr : List ChanEv) :
    ((portClose p tr).1).isOpen = false := by
  unfold portClose
  split <;> simp_all

theorem portOpen_isOpen (env : SerialEnv) (p : PortState) (tr : List ChanEv)
    (port : String) (baud : Nat) :
    ((portOpen env p tr port baud).2.1).isOpen = (portOpen env p tr port baud).1 := rfl

theorem portOpen_eq_isOpen {env : SerialEnv} {q : PortState} {tr tr' : List ChanEv}
    {port : String} {baud : Nat} {ok : Bool} {p : PortState}
    (h : portOpen env q tr port baud = (ok, p, tr')) : p.isOpen = ok := by
  have hiso := portOpen_isOpen env q tr port baud
  rw [h] at hiso
  exact hiso

theorem portClose_eq_isOpen {q : PortState} {tr tr' : List ChanEv} {p : PortState}
    (h : portClose q tr = (p, tr')) : p.isOpen = false := by
  have hiso := portClose_isOpen q tr
  rw [h] at hiso
  exact hiso

theorem land_one_shiftLeft_ne (b i : Nat) :
    decide (b &&& (1 <<< i) ≠ 0) = b.testBit i := by
  rw [Nat.one_shiftLeft, Nat.and_two_pow]
  cases h : b.testBit i <;> simp [h, (Nat.two_pow_pos i).ne']

/-! ## Claims -/

/-- C1, counterexample.  The claim says that calling `disconnect()`
while the status is `ConnectionError` leaves the status
`Disconnected`.  It does not: `disconnect` returns immediately when
`connected` is false (makcu.cpp:291), so from the (reachable) state a
failed connect leaves behind — status `CONNECTION_ERROR`, `connected`
false — the status stays `CONNECTION_ERROR`. -/
theorem disconnect_error_status_cex :
    (disconnect errorStateDemo).status = ConnectionStatus.CONNECTION_ERROR ∧
    ConnectionStatus.CONNECTION_ERROR ≠ ConnectionStatus.DISCONNECTED := by
  decide

/-- C1, amended.  `disconnect` is idempotent and safe from any state:
when connected it joins the monitoring thread, closes the channel and
resets the status to `DISCONNECTED`; when not connected (including
after a connect failure, where `status = CONNECTION_ERROR`) it is a
no-op that leaves the state — and in particular the status —
unchanged; a second call changes nothing. -/
theorem disconnect_idempotent (st : DeviceState) :
    disconnect (disconnect st) = disconnect st ∧
    (st.connected = true →
      (disconnect st).status = ConnectionStatus.DISCONNECTED ∧
      (disconnect st).connected = false ∧
      (disconnect st).monitoring = false ∧
      (disconnect st).port.isOpen = false) ∧
    (st.connected = false → disconnect st = st) := by
  by_cases h : st.connected = false <;>
    simp_all [disconnect]

/-- Witness for C1's amended theorem at a concrete connected state. -/
theorem disconnect_idempotent_witness :
    connectedDemo.connected = true ∧
    ((disconnect connectedDemo).status = ConnectionStatus.DISCONNECTED ∧
      (disconnect connectedDemo).connected = false ∧
      (disconnect connectedDemo).monitoring = false ∧
      (disconnect connectedDemo).port.isOpen = false) :=
  ⟨rfl, (disconnect_idempotent connectedDemo).2.1 rfl⟩

/-- C4.  In the monitoring loop, a sampled byte equal to the last
observed one produces no callback invocation; a differing byte
produces exactly 5 invocations, one per bit in increasing bit order
(left, right, middle, side4, side5), each carrying that bit's value
in the new byte — all 5 states are re-emitted, not only changed
bits. -/
theorem monitorStep_edge_events (b1 b2 : Nat) :
    monitorStep true b1 b2 =
      if b2 = b1 then (b1, [])
      else (b2,
        [(MouseButton.LEFT, b2.testBit 0),
         (MouseButton.RIGHT, b2.testBit 1),
         (MouseButton.MIDDLE, b2.testBit 2),
         (MouseButton.SIDE4, b2.testBit 3),
         (MouseButton.SIDE5, b2.testBit 4)]) := by
  have hr : List.range 5 = [0, 1, 2, 3, 4] := rfl
  by_cases h : b2 = b1
  · simp [monitorStep, h]
  · simp only [monitorStep, h, if_false, ite_false, processButtonData, hr, List.map,
      land_one_shiftLeft_ne, MouseButton.ofBit]
    simp [h]

/-- C6 (code bug).  Serializing the one-action macro `demoMacro`,
loading the produced file back, and serializing again does NOT
reproduce the first serialization: `loadFromFile` parses no action
lines (its own comment says the full implementation would), so the
reloaded macro is empty and re-serializes to a 0-action file. -/
theorem serialize_load_roundtrip_fails :
    (loadFromFile initRecState (some (saveToFile demoMacro))).1 = true ∧
    saveToFile (loadFromFile initRecState (some (saveToFile demoMacro))).2.actions ≠
      saveToFile demoMacro := by
  decide

/-- C7 (code bug).  Loading a truncated file — header valid, declared
action count 2, only one action line — does not fail: the load
returns `true`, and the recorder's previously loaded action list has
been cleared rather than left unchanged. -/
theorem load_truncated_succeeds :
    (loadFromFile loadedRec (some "MAKCU_MACRO_V1\n2\n0,11,500\n")).1 = true ∧
    (loadFromFile loadedRec (some "MAKCU_MACRO_V1\n2\n0,11,500\n")).2.actions = [] ∧
    (loadFromFile loadedRec (some "MAKCU_MACRO_V1\n2\n0,11,500\n")).2.actions ≠
      loadedRec.actions := by
  decide

/-- C9.  Every command method of the `Device` first checks the
`connected` flag; when not connected it returns `false` (the empty
string for queries) and performs no channel operation at all (an
empty channel-event trace). -/
theorem commands_check_connected (env : SerialEnv) (st : DeviceState)
    (key duration count ms : Nat) (keys : List Nat) (text command : String)
    (button : MouseButton) (x y delta bw bh : Int) (enable : Bool)
    (hconn : st.connected = false) :
    keyDown env st key = (false, []) ∧
    keyUp env st key = (false, []) ∧
    keyPress env st key duration = (false, []) ∧
    multiKeyDown env st keys = (false, []) ∧
    multiKeyUp env st keys = (false, []) ∧
    multiKeyPress env st keys duration = (false, []) ∧
    typeString env st text = (false, []) ∧
    isKeyDown env st key = (false, []) ∧
    mouseDown env st button = (false, []) ∧
    mouseUp env st button = (false, []) ∧
    mouseClick env st button count = (false, []) ∧
    mouseMove env st x y = (false, []) ∧
    mouseMoveTo env st x y = (false, []) ∧
    mouseWheel env st delta = (false, []) ∧
    mouseCalibrate env st = (false, []) ∧
    mouseSetScreenBounds env st bw bh = (false, []) ∧
    reset env st = (false, []) ∧
    delay env st ms = (false, []) ∧
    enableButtonMonitoring env st enable = (false, []) ∧
    getVersion env st = ("", []) ∧
    getSerialNumber env st = ("", []) ∧
    sendRawCommand env st [] command = (false, []) ∧
    receiveRawResponse env st [] = ("", []) := by
  simp [keyDown, keyUp, keyPress, multiKeyDown, multiKeyUp, multiKeyPress,
    typeString, isKeyDown, mouseDown, mouseUp, mouseClick, mouseMove, mouseMoveTo,
    mouseWheel, mouseCalibrate, mouseSetScreenBounds, reset, delay,
    enableButtonMonitoring, getVersion, getSerialNumber, sendRawCommand,
    receiveRawResponse, hconn]

/-- Witness for C9 at a concrete disconnected device. -/
theorem commands_check_connected_witness :
    initialDevice.connected = false ∧
    keyDown envAllOkW initialDevice 4 = (false, []) ∧
    keyUp envAllOkW initialDevice 4 = (false, []) ∧
    keyPress envAllOkW initialDevice 4 10 = (false, []) ∧
    multiKeyDown envAllOkW initialDevice [4, 5] = (false, []) ∧
    multiKeyUp envAllOkW initialDevice [4, 5] = (false, []) ∧
    multiKeyPress envAllOkW initialDevice [4, 5] 10 = (false, []) ∧
    typeString envAllOkW initialDevice "hi" = (false, []) ∧
    isKeyDown envAllOkW initialDevice 4 = (false, []) ∧
    mouseDown envAllOkW initialDevice .LEFT = (false, []) ∧
    mouseUp envAllOkW initialDevice .LEFT = (false, []) ∧
    mouseClick envAllOkW initialDevice .LEFT 1 = (false, []) ∧
    mouseMove envAllOkW initialDevice 3 (-4) = (false, []) ∧
    mouseMoveTo envAllOkW initialDevice 3 4 = (false, []) ∧
    mouseWheel envAllOkW initialDevice (-1) = (false, []) ∧
    mouseCalibrate envAllOkW initialDevice = (false, []) ∧
    mouseSetScreenBounds envAllOkW initialDevice 1920 1080 = (false, []) ∧
    reset envAllOkW initialDevice = (false, []) ∧
    delay envAllOkW initialDevice 100 = (false, []) ∧
    enableButtonMonitoring envAllOkW initialDevice true = (false, []) ∧
    getVersion envAllOkW initialDevice = ("", []) ∧
    getSerialNumber envAllOkW initialDevice = ("", []) ∧
    sendRawCommand envAllOkW initialDevice [] "km.zero()\r" = (false, []) ∧
    receiveRawResponse envAllOkW initialDevice [] = ("", []) :=
  ⟨rfl, commands_check_connected envAllOkW initialDevice 4 10 1 100 [4, 5] "hi"
    "km.zero()\r" .LEFT 3 (-4) (-1) 1920 1080 true rfl⟩

/-- C10.  Even while connected, the multi-key commands reject an
empty key list and `typeString` rejects an empty string: they return
`false` and write nothing to the channel. -/
theorem empty_input_commands (env : SerialEnv) (st : DeviceState) (duration : Nat)
    (_hconn : st.connected = true) :
    multiKeyDown env st [] = (false, []) ∧
    multiKeyUp env st [] = (false, []) ∧
    multiKeyPress env st [] duration = (false, []) ∧
    typeString env st "" = (false, []) := by
  simp [multiKeyDown, multiKeyUp, multiKeyPress, typeString]

/-- Witness for C10 at a concrete connected device. -/
theorem empty_input_commands_witness :
    connectedDemo.connected = true ∧
    multiKeyDown envAllOkW connectedDemo [] = (false, []) ∧
    multiKeyUp envAllOkW connectedDemo [] = (false, []) ∧
    multiKeyPress envAllOkW connectedDemo [] 10 = (false, []) ∧
    typeString envAllOkW connectedDemo "" = (false, []) :=
  ⟨rfl, empty_input_commands envAllOkW connectedDemo 10 rfl⟩

theorem playbackSteps_eq_specPacing (minD : Nat) (hmin : 0 < minD) :
    ∀ (acts : List TimedAction) (prev : Nat),
      playbackSteps true minD prev acts = specPacing minD prev acts
  | [], _ => rfl
  | a :: rest, prev => by
    unfold playbackSteps specPacing
    rw [playbackSteps_eq_specPacing minD hmin rest a.ts]
    by_cases hlt : prev < a.ts
    · simp [hlt]
    · have hz : a.ts - prev = 0 := Nat.sub_eq_zero_of_le (Nat.le_of_not_lt hlt)
      simp [hlt, hz, Nat.not_le_of_lt hmin]

/-- C5.  With timestamp mode enabled and a positive minimum-delay
threshold, the synchronous playback schedule sleeps before an action
exactly when the gap from the previous action's timestamp is at or
above the threshold, and then sleeps for exactly that gap;
sub-threshold gaps produce no sleep.  Each repetition restarts from a
previous timestamp of 0. -/
theorem playback_pacing (st : RecState) (repeatCount : Nat)
    (hts : st.useTimestamps = true) (hpl : st.playing = false)
    (hmin : 0 < st.minimumDelay) :
    (playback st repeatCount).2 =
      ((List.range repeatCount).map fun _ =>
        specPacing st.minimumDelay 0 st.actions).flatten := by
  unfold playback
  rw [hts, hpl]
  by_cases he : st.actions.isEmpty
  · have hnil : st.actions = [] := by simpa using he
    simp [he, hnil, specPacing]
  · simp [he, playbackSteps_eq_specPacing st.minimumDelay hmin]

/-- Witness for C5 on the spec's own scenario: ~200 ms of sleep
before the second action, no sleep before the first and third. -/
theorem playback_pacing_witness :
    (pacingDemo.useTimestamps = true ∧ pacingDemo.playing = false ∧
      0 < pacingDemo.minimumDelay) ∧
    (playback pacingDemo 1).2 =
      [(none, { ts := 0, act := .delayAct 1 }),
       (some 200, { ts := 200, act := .mouseWhl 1 }),
       (none, { ts := 250, act := .mouseWhl 2 })] :=
  ⟨⟨rfl, rfl, by decide⟩, by
    rw [playback_pacing pacingDemo 1 rfl rfl (by decide)]
    decide⟩

/-- C8, counterexample.  A sequence of recorder operations executed
at non-decreasing clock times whose resulting action timestamps are
NOT non-decreasing ([100, 0]). -/
theorem recorder_timestamps_cex :
    List.Chain' (· ≤ ·) (c8BadOps.map Prod.fst) ∧
    (runOps initRecState c8BadOps).actions.map TimedAction.ts = [100, 0] ∧
    ¬ List.Chain' (· ≤ ·)
      ((runOps initRecState c8BadOps).actions.map TimedAction.ts) := by
  have hres : (runOps initRecState c8BadOps).actions.map TimedAction.ts = [100, 0] := by
    decide
  refine ⟨?_, hres, ?_⟩
  · show List.Chain' (· ≤ ·) [0, 100, 150, 200]
    simp [List.chain'_cons]
  · rw [hres]
    simp [List.chain'_cons]

theorem RecInv.mono {st : RecState} {t t' : Nat} (h : RecInv st t) (htt : t ≤ t') :
    RecInv st t' := by
  refine ⟨h.1, fun hr => ?_⟩
  obtain ⟨hs, ha⟩ := h.2 hr
  exact ⟨hs.trans htt, fun a hmem => (ha a hmem).trans (Nat.sub_le_sub_right htt _)⟩

theorem pushAction_inv {st : RecState} {t t' : Nat} (h : RecInv st t) (htt : t ≤ t')
    (hr : st.recording = true) (a : MAction) : RecInv (pushAction st t' a) t' := by
  obtain ⟨hchain, hrec⟩ := h
  obtain ⟨hs, ha⟩ := hrec hr
  have hbound : ∀ x ∈ st.actions, x.ts ≤ t' - st.recordingStart :=
    fun x hx => (ha x hx).trans (Nat.sub_le_sub_right htt _)
  have hts : getCurrentTimestamp st t' = t' - st.recordingStart := by
    simp [getCurrentTimestamp, hr]
  constructor
  · simp only [pushAction, List.map_append, List.map_cons, List.map_nil, hts]
    rw [List.chain'_append]
    refine ⟨hchain, List.chain'_singleton _, ?_⟩
    intro x hx y hy
    simp only [List.head?_cons, Option.mem_def, Option.some.injEq] at hy
    subst hy
    obtain ⟨hne, hlast⟩ := List.mem_getLast?_eq_getLast hx
    obtain ⟨z, hz, hzx⟩ := List.mem_map.mp (hlast ▸ List.getLast_mem hne)
    exact hzx ▸ hbound z hz
  · intro _
    refine ⟨hs.trans htt, fun x hx => ?_⟩
    simp only [pushAction, List.mem_append, List.mem_singleton] at hx
    rcases hx with hx | rfl
    · exact hbound x hx
    · show getCurrentTimestamp st t' ≤ t' - (pushAction st t' a).recordingStart
      rw [hts]
      exact Nat.le_refl _

theorem recStep_inv {st : RecState} {t t' : Nat} {op : RecOp} (h : RecInv st t)
    (htt : t ≤ t') (hok : op.isManualAdd = true → st.recording = true) :
    RecInv (recStep st t' op) t' := by
  cases op with
  | startRec =>
    simp only [recStep, startRecording]
    split
    · exact h.mono htt
    · exact ⟨List.chain'_nil, fun _ => ⟨Nat.le_refl _, by simp⟩⟩
  | stopRec =>
    simp only [recStep, stopRecording]
    split
    · exact h.mono htt
    · exact ⟨(h.mono htt).1, by simp⟩
  | opAddKeyPress k d => exact pushAction_inv h htt (hok rfl) _
  | opAddMultiKeyPress ks d => exact pushAction_inv h htt (hok rfl) _
  | opAddTypeString s => exact pushAction_inv h htt (hok rfl) _
  | opAddMouseClick b c => exact pushAction_inv h htt (hok rfl) _
  | opAddMouseMove x y abs => exact pushAction_inv h htt (hok rfl) _
  | opAddMouseWheel d => exact pushAction_inv h htt (hok rfl) _
  | opAddDelay ms => exact pushAction_inv h htt (hok rfl) _
  | opOnKeyboard k p =>
    simp only [recStep, onKeyboard]
    split
    · exact h.mono htt
    · next hr => exact pushAction_inv h htt (by simp at hr; exact hr) _
  | opOnMouseButton b p =>
    simp only [recStep, onMouseButton]
    split
    · exact h.mono htt
    · next hr => exact pushAction_inv h htt (by simp at hr; exact hr) _
  | opOnMouseMove x y =>
    simp only [recStep, onMouseMove]
    split
    · exact h.mono htt
    · next hr =>
      simp only [Bool.or_eq_true, decide_eq_true_eq, not_or] at hr
      exact pushAction_inv h htt (eq_true_of_ne_false hr.1) _
  | opOnMouseWheel d =>
    simp only [recStep, onMouseWheel]
    split
    · exact h.mono htt
    · next hr => exact pushAction_inv h htt (by simp at hr; exact hr) _
  | opLoad f =>
    simp only [recStep, loadFromFile]
    split
    · exact h.mono htt
    · next hnotrec =>
      simp only [Bool.or_eq_true, not_or, Bool.not_eq_true] at hnotrec
      cases f with
      | none => exact h.mono htt
      | some content =>
        simp only
        split
        · exact h.mono htt
        · exact ⟨List.chain'_nil, by simp [hnotrec.1]⟩
  | opSetRecordMouseMovement r =>
    exact ⟨(h.mono htt).1, fun hr => (h.mono htt).2 hr⟩

theorem runOps_inv : ∀ (ops : List (Nat × RecOp)) (st : RecState) (t : Nat),
    RecInv st t → List.Chain' (· ≤ ·) (t :: ops.map Prod.fst) →
    addsOkB st ops = true → ∃ t', RecInv (runOps st ops) t'
  | [], st, t, hinv, _, _ => ⟨t, hinv⟩
  | (t1, op) :: rest, st, t, hinv, hchain, hok => by
    rw [List.map_cons, List.chain'_cons] at hchain
    rw [addsOkB, Bool.and_eq_true, Bool.or_eq_true] at hok
    have hmanual : op.isManualAdd = true → st.recording = true := by
      intro hm
      rcases hok.1 with hn | hr
      · rw [hm] at hn; cases hn
      · exact hr
    exact runOps_inv rest (recStep st t1 op) t1
      (recStep_inv hinv hchain.1 hmanual) hchain.2 hok.2

/-- C8, amended.  For every sequence of recorder operations executed
at non-decreasing monotonic-clock times in which every manual `add*`
call happens while recording is active (recording callbacks,
start/stop recording and load may appear anywhere), the action
timestamps of the resulting macro are non-decreasing in list order.
(As stated the claim is false: a manual `add*` call after recording
has stopped stamps timestamp 0 — see the counterexample.) -/
theorem recorder_timestamps_monotone (ops : List (Nat × RecOp))
    (hchain : List.Chain' (· ≤ ·) (ops.map Prod.fst))
    (hok : addsOkB initRecState ops = true) :
    List.Chain' (· ≤ ·)
      ((runOps initRecState ops).actions.map TimedAction.ts) := by
  have h0 : RecInv initRecState 0 := ⟨List.chain'_nil, by intro h; cases h⟩
  have hchain0 : List.Chain' (· ≤ ·) (0 :: ops.map Prod.fst) := by
    cases hmap : ops.map Prod.fst with
    | nil => simp
    | cons a l =>
      rw [List.chain'_cons]
      exact ⟨Nat.zero_le a, hmap ▸ hchain⟩
  obtain ⟨t', hinv⟩ := runOps_inv ops initRecState 0 h0 hchain0 hok
  exact hinv.1

/-- Witness for C8's amended theorem on a concrete sequence. -/
theorem recorder_timestamps_monotone_witness :
    (List.Chain' (· ≤ ·) (c8GoodOps.map Prod.fst) ∧
      addsOkB initRecState c8GoodOps = true) ∧
    List.Chain' (· ≤ ·)
      ((runOps initRecState c8GoodOps).actions.map TimedAction.ts) :=
  ⟨⟨by show List.Chain' (· ≤ ·) [0, 100, 120, 150]; simp [List.chain'_cons],
    by decide⟩,
   recorder_timestamps_monotone c8GoodOps
     (by show List.Chain' (· ≤ ·) [0, 100, 120, 150]; simp [List.chain'_cons])
     (by decide)⟩

/-- C3.  Whenever `connect` fails — whatever phase failed (no port
found, low-speed open, handshake write/flush, high-speed reopen, or
initialization) — the session is left with status
`CONNECTION_ERROR`, the connected flag false, the channel closed and
no polling thread running.  The precondition is any state a
non-connected device can be in (channel closed, not monitoring). -/
theorem connect_failure_state (env : SerialEnv) (st : DeviceState) (portArg : String)
    (hc : st.connected = false) (hpo : st.port.isOpen = false)
    (hm : st.monitoring = false) :
    (connect env st portArg).1 = false →
      (connect env st portArg).2.1.status = ConnectionStatus.CONNECTION_ERROR ∧
      (connect env st portArg).2.1.connected = false ∧
      (connect env st portArg).2.1.port.isOpen = false ∧
      (connect env st portArg).2.1.monitoring = false := by
  unfold connect
  rw [hc]
  simp only [Bool.false_eq_true, if_false]
  repeat' split
  all_goals intro hres
  all_goals first
    | exact Bool.noConfusion hres
    | exact ⟨rfl, rfl, hpo, hm⟩
    | exact ⟨rfl, rfl, portClose_isOpen _ _, hm⟩
    | (rename_i heq; exact ⟨rfl, rfl, portOpen_eq_isOpen heq, hm⟩)

/-- Witness for C3 on the spec's scenario: an endpoint that accepts
open + handshake + reopen but fails on the initialization command. -/
theorem connect_failure_state_witness :
    (initialDevice.connected = false ∧ initialDevice.port.isOpen = false ∧
      initialDevice.monitoring = false ∧
      (connect envInitFailW initialDevice "COM3").1 = false) ∧
    ((connect envInitFailW initialDevice "COM3").2.1.status =
        ConnectionStatus.CONNECTION_ERROR ∧
      (connect envInitFailW initialDevice "COM3").2.1.connected = false ∧
      (connect envInitFailW initialDevice "COM3").2.1.port.isOpen = false ∧
      (connect envInitFailW initialDevice "COM3").2.1.monitoring = false) :=
  ⟨⟨rfl, rfl, rfl, by decide⟩,
   connect_failure_state envInitFailW initialDevice "COM3" rfl rfl rfl (by decide)⟩

/-- C2.  In a connect attempt on port `p` (not already connected,
channel initially closed) in which the environment grants the
low-speed open, the handshake write and the flush, the channel trace
is exactly: open `p` at 115200, write of the 9 bytes
`DE AD 05 00 A5 00 09 3D 00`, flush, close, a fixed 100 ms settle
wait, reopen of the same port name at 4,000,000 — followed by the
initialization phase (which starts with its 2000 ms settle sleep)
exactly when the reopen succeeded, and by nothing (with `connect`
returning false at status `CONNECTION_ERROR`) when it failed. -/
theorem connect_rate_switch_handshake (env : SerialEnv) (st : DeviceState) (p : String)
    (hc : st.connected = false) (hpo : st.port.isOpen = false) (hp : p ≠ "")
    (h1 : env.openOk [] p INITIAL_BAUD_RATE = true)
    (h2 : env.writeOk [ChanEv.openEv p INITIAL_BAUD_RATE true]
      BAUD_CHANGE_COMMAND = true)
    (h3 : env.flushOk [ChanEv.openEv p INITIAL_BAUD_RATE true,
      ChanEv.writeEv BAUD_CHANGE_COMMAND true] = true) :
    ∃ rest,
      (connect env st p).2.2 =
        [ChanEv.openEv p INITIAL_BAUD_RATE true,
         ChanEv.writeEv BAUD_CHANGE_COMMAND true,
         ChanEv.flushEv true,
         ChanEv.closeEv,
         ChanEv.sleepEv 100,
         ChanEv.openEv p HIGH_SPEED_BAUD_RATE
           (env.openOk [ChanEv.openEv p INITIAL_BAUD_RATE true,
             ChanEv.writeEv BAUD_CHANGE_COMMAND true, ChanEv.flushEv true,
             ChanEv.closeEv, ChanEv.sleepEv 100] p HIGH_SPEED_BAUD_RATE)] ++ rest ∧
      (env.openOk [ChanEv.openEv p INITIAL_BAUD_RATE true,
          ChanEv.writeEv BAUD_CHANGE_COMMAND true, ChanEv.flushEv true,
          ChanEv.closeEv, ChanEv.sleepEv 100] p HIGH_SPEED_BAUD_RATE = false →
        rest = [] ∧ (connect env st p).1 = false ∧
        (connect env st p).2.1.status = ConnectionStatus.CONNECTION_ERROR) ∧
      (env.openOk [ChanEv.openEv p INITIAL_BAUD_RATE true,
          ChanEv.writeEv BAUD_CHANGE_COMMAND true, ChanEv.flushEv true,
          ChanEv.closeEv, ChanEv.sleepEv 100] p HIGH_SPEED_BAUD_RATE = true →
        ∃ more, rest = ChanEv.sleepEv 2000 :: more) := by
  have hkm : (strBytes "km.buttons(1)\r").isEmpty = false := by decide
  have hbn : BAUD_CHANGE_COMMAND.isEmpty = false := by decide
  cases hro : env.openOk [ChanEv.openEv p INITIAL_BAUD_RATE true,
      ChanEv.writeEv BAUD_CHANGE_COMMAND true, ChanEv.flushEv true,
      ChanEv.closeEv, ChanEv.sleepEv 100] p HIGH_SPEED_BAUD_RATE with
  | false =>
    refine ⟨[], ?_, fun _ => ⟨rfl, ?_, ?_⟩, fun h => Bool.noConfusion h⟩
    · simp [connect, hc, hp, switchToHighSpeedMode, portWrite, portFlush,
        portClose, portOpen, hpo, h1, h2, h3, hro, hbn]
    · simp [connect, hc, hp, switchToHighSpeedMode, portWrite, portFlush,
        portClose, portOpen, hpo, h1, h2, h3, hro, hbn]
    · simp [connect, hc, hp, switchToHighSpeedMode, portWrite, portFlush,
        portClose, portOpen, hpo, h1, h2, h3, hro, hbn]
  | true =>
    cases hw : env.writeOk [ChanEv.openEv p INITIAL_BAUD_RATE true,
        ChanEv.writeEv BAUD_CHANGE_COMMAND true, ChanEv.flushEv true,
        ChanEv.closeEv, ChanEv.sleepEv 100,
        ChanEv.openEv p HIGH_SPEED_BAUD_RATE true, ChanEv.sleepEv 2000]
        (strBytes "km.buttons(1)\r") with
    | false =>
      refine ⟨[ChanEv.sleepEv 2000,
        ChanEv.writeEv (strBytes "km.buttons(1)\r") false, ChanEv.closeEv],
        ?_, fun h => Bool.noConfusion h,
        fun _ => ⟨_, rfl⟩⟩
      simp [connect, hc, hp, switchToHighSpeedMode, initDevice, portWrite,
        portFlush, portClose, portOpen, hpo, h1, h2, h3, hro, hw, hkm, hbn]
    | true =>
      cases hfl : env.flushOk [ChanEv.openEv p INITIAL_BAUD_RATE true,
          ChanEv.writeEv BAUD_CHANGE_COMMAND true, ChanEv.flushEv true,
          ChanEv.closeEv, ChanEv.sleepEv 100,
          ChanEv.openEv p HIGH_SPEED_BAUD_RATE true, ChanEv.sleepEv 2000,
          ChanEv.writeEv (strBytes "km.buttons(1)\r") true] with
      | false =>
        refine ⟨[ChanEv.sleepEv 2000,
          ChanEv.writeEv (strBytes "km.buttons(1)\r") true,
          ChanEv.flushEv false, ChanEv.closeEv],
          ?_, fun h => Bool.noConfusion h,
          fun _ => ⟨_, rfl⟩⟩
        simp [connect, hc, hp, switchToHighSpeedMode, initDevice, portWrite,
          portFlush, portClose, portOpen, hpo, h1, h2, h3, hro, hw, hfl, hkm, hbn]
      | true =>
        refine ⟨[ChanEv.sleepEv 2000,
          ChanEv.writeEv (strBytes "km.buttons(1)\r") true,
          ChanEv.flushEv true, ChanEv.sleepEv 50],
          ?_, fun h => Bool.noConfusion h,
          fun _ => ⟨_, rfl⟩⟩
        simp [connect, hc, hp, switchToHighSpeedMode, initDevice, portWrite,
          portFlush, portClose, portOpen, hpo, h1, h2, h3, hro, hw, hfl, hkm, hbn]

/-- Witness for C2 on an all-granting environment. -/
theorem connect_rate_switch_handshake_witness :
    (initialDevice.connected = false ∧ initialDevice.port.isOpen = false ∧
      "COM3" ≠ "" ∧
      envAllOkW.openOk [] "COM3" INITIAL_BAUD_RATE = true ∧
      envAllOkW.writeOk [ChanEv.openEv "COM3" INITIAL_BAUD_RATE true]
        BAUD_CHANGE_COMMAND = true ∧
      envAllOkW.flushOk [ChanEv.openEv "COM3" INITIAL_BAUD_RATE true,
        ChanEv.writeEv BAUD_CHANGE_COMMAND true] = true) ∧
    (∃ rest,
      (connect envAllOkW initialDevice "COM3").2.2 =
        [ChanEv.openEv "COM3" INITIAL_BAUD_RATE true,
         ChanEv.writeEv BAUD_CHANGE_COMMAND true,
         ChanEv.flushEv true,
         ChanEv.closeEv,
         ChanEv.sleepEv 100,
         ChanEv.openEv "COM3" HIGH_SPEED_BAUD_RATE
           (envAllOkW.openOk [ChanEv.openEv "COM3" INITIAL_BAUD_RATE true,
             ChanEv.writeEv BAUD_CHANGE_COMMAND true, ChanEv.flushEv true,
             ChanEv.closeEv, ChanEv.sleepEv 100] "COM3" HIGH_SPEED_BAUD_RATE)] ++ rest ∧
      (envAllOkW.openOk [ChanEv.openEv "COM3" INITIAL_BAUD_RATE true,
          ChanEv.writeEv BAUD_CHANGE_COMMAND true, ChanEv.flushEv true,
          ChanEv.closeEv, ChanEv.sleepEv 100] "COM3" HIGH_SPEED_BAUD_RATE = false →
        rest = [] ∧ (connect envAllOkW initialDevice "COM3").1 = false ∧
        (connect envAllOkW initialDevice "COM3").2.1.status =
          ConnectionStatus.CONNECTION_ERROR) ∧
      (envAllOkW.openOk [ChanEv.openEv "COM3" INITIAL_BAUD_RATE true,
          ChanEv.writeEv BAUD_CHANGE_COMMAND true, ChanEv.flushEv true,
          ChanEv.closeEv, ChanEv.sleepEv 100] "COM3" HIGH_SPEED_BAUD_RATE = true →
        ∃ more, rest = ChanEv.sleepEv 2000 :: more)) :=
  ⟨⟨rfl, rfl, by decide, rfl, rfl, rfl⟩,
   connect_rate_switch_handshake envAllOkW initialDevice "COM3" rfl rfl (by decide)
     rfl rfl rfl⟩

end Makcu
